import Mathlib

/-!
Verification of the price-alert checker (amazon_price_change.py).

Shallow embedding conventions:
  - Python floats are modelled by `PyFloat`: an exact rational for finite
    values together with the special values inf, -inf and nan.  Finite
    values are kept exact (no binary rounding, no overflow to inf, no
    signed zero); the claims under study never depend on those artefacts.
  - Python exceptions are modelled by `PyExc`; a fallible Python function
    becomes a Lean function into `Except PyExc _` or records the escaped
    exception in its result.
  - The three external collaborators (Amazon PAAPI, Twilio, SMTP) are
    modelled as oracles (`ApiResponse`, `SmsOutcome`, `SmtpOutcome`)
    describing what the remote side does on this run; the functions under
    verification are deterministic in the oracle.
  - `print` calls are collected into a list of output strings, one entry
    per print call, and notifier/network invocations into a list of
    `Event`s, in program order.
-/

/-- A single-quote character (ASCII 39), used to model Python repr output. -/
def squote : String := String.singleton (Char.ofNat 39)

/-- Python repr of a string in error messages: the text between quotes. -/
def pyQuote (s : String) : String := squote ++ s ++ squote

/-- Model of a Python float value: exact rational for finite values plus
the special values.  -/
inductive PyFloat where
  | finite (q : ℚ)
  | inf
  | negInf
  | nan
deriving DecidableEq

/-- Model of the Python exceptions this program can see.  The subclass
facts that matter are encoded separately (`PyExc.isLookupError`); the
except-clause ordering of the source is reproduced at each handler. -/
inductive PyExc where
  | keyError (key : String)
  | indexError (msg : String)
  | attributeError (msg : String)
  | valueError (msg : String)
  | smtpAuthenticationError
  | smtpException (msg : String)
  | otherError (msg : String)
deriving DecidableEq

/-- Python str(e) for each modelled exception (KeyError includes the repr
of the key, as CPython does). -/
def PyExc.message : PyExc → String
  | .keyError k => pyQuote k
  | .indexError m => m
  | .attributeError m => m
  | .valueError m => m
  | .smtpAuthenticationError => "SMTP authentication failed"
  | .smtpException m => m
  | .otherError m => m

/-- Models Python isinstance(e, LookupError): IndexError and KeyError are
the LookupError subclasses among the modelled exceptions. -/
def PyExc.isLookupError : PyExc → Bool
  | .keyError _ => true
  | .indexError _ => true
  | _ => false

/-- Python `<=` on floats: any comparison involving nan is false. -/
def PyFloat.le : PyFloat → PyFloat → Bool
  | .nan, _ => false
  | _, .nan => false
  | .negInf, _ => true
  | _, .inf => true
  | .inf, _ => false
  | _, .negInf => false
  | .finite a, .finite b => decide (a ≤ b)

/-- Python `-` on floats (used only for the shortfall print).  Exact
rational subtraction, written on numerators and denominators so that the
kernel can evaluate it (the ℚ field operations are irreducible here). -/
def PyFloat.sub : PyFloat → PyFloat → PyFloat
  | .nan, _ => .nan
  | _, .nan => .nan
  | .inf, .inf => .nan
  | .inf, _ => .inf
  | _, .inf => .negInf
  | .negInf, .negInf => .nan
  | .negInf, _ => .negInf
  | _, .negInf => .inf
  | .finite a, .finite b =>
    .finite (Rat.divInt (a.num * (b.den : Int) - b.num * (a.den : Int))
      ((a.den : Int) * (b.den : Int)))

/-- Round `|q| * 100` to the nearest integer, ties to even, as CPython
string formatting does on the exact value; computed on the numerator and
denominator with integer arithmetic: with n = |num|*100 and d = den, the
floor is f = n fdiv d, and the fractional part (n - f*d)/d compares to
one half by comparing 2*(n - f*d) against d. -/
def round2cents (q : ℚ) : Nat :=
  let n : Int := (q.num.natAbs : Int) * 100
  let d : Int := (q.den : Int)
  let f : Int := Int.fdiv n d
  let rem : Int := n - f * d
  (if 2 * rem < d then f
   else if d < 2 * rem then f + 1
   else if f % 2 = 0 then f else f + 1).toNat

/-- The two decimal digits of a cents value below 100. -/
def twoDigits (n : Nat) : String :=
  String.mk [Nat.digitChar (n / 10 % 10), Nat.digitChar (n % 10)]

/-- Python format spec `:.2f` applied to a float (finite values are
rendered with exactly two digits after the point; the special values
render as inf, -inf, nan). -/
def pyFormat2 : PyFloat → String
  | .finite q =>
    let n := round2cents q
    (if q < 0 then "-" else "") ++ toString (n / 100) ++ "." ++ twoDigits (n % 100)
  | .inf => "inf"
  | .negInf => "-inf"
  | .nan => "nan"

/-- ASCII whitespace stripped by Python float(). -/
def isPySpace (c : Char) : Bool :=
  c = ' ' || c = '\t' || c = '\n' || c = '\r' || c = Char.ofNat 11 || c = Char.ofNat 12

/-- Strip whitespace from both ends of a character list. -/
def stripChars (l : List Char) : List Char :=
  ((l.dropWhile isPySpace).reverse.dropWhile isPySpace).reverse

/-- PEP 515: every underscore must sit directly between two digits.
`prev` is the character just before the current position. -/
def underscoresOkAux : Option Char → List Char → Bool
  | _, [] => true
  | prev, c :: rest =>
    if c = '_' then
      (match prev with
       | some p => p.isDigit
       | none => false) &&
      (match rest with
       | r :: _ => r.isDigit
       | [] => false) &&
      underscoresOkAux (some c) rest
    else underscoresOkAux (some c) rest

/-- Numeric value of a list of ASCII digits. -/
def digitsToNat (l : List Char) : Nat :=
  l.foldl (fun a c => 10 * a + (c.toNat - 48)) 0

/-- Parse the exponent digits after an optional sign; the remainder of the
input must be consumed entirely. -/
def parseExpDigits (r : List Char) (neg : Bool) : Option Int :=
  if r ≠ [] ∧ r.all Char.isDigit then
    some (if neg then -(digitsToNat r : Int) else (digitsToNat r : Int))
  else none

/-- Parse an optional exponent part `e[sign]digits` covering the whole
remaining input. -/
def parseExp : List Char → Option Int
  | [] => some 0
  | 'e' :: ('+' :: r) => parseExpDigits r false
  | 'e' :: ('-' :: r) => parseExpDigits r true
  | 'e' :: r => parseExpDigits r false
  | 'E' :: ('+' :: r) => parseExpDigits r false
  | 'E' :: ('-' :: r) => parseExpDigits r true
  | 'E' :: r => parseExpDigits r false
  | _ => none

/-- Parse an unsigned decimal literal `digits[.digits][e[sign]digits]`
(at least one digit in the mantissa) as an exact rational.  The value
(intpart.fracpart) * 10^e is assembled with integer arithmetic and one
Rat.divInt so the kernel can evaluate it: the mantissa digits form the
numerator and 10^(number of fraction digits) the denominator, and the
exponent scales whichever side keeps both integral. -/
def parseDecimal (l : List Char) (neg : Bool) : Option PyFloat :=
  let p1 := l.span Char.isDigit
  let p2 :=
    match p1.2 with
    | '.' :: r => r.span Char.isDigit
    | _ => ([], p1.2)
  if p1.1.isEmpty && p2.1.isEmpty then none
  else
    match parseExp p2.2 with
    | none => none
    | some e =>
      let mant : Int := (digitsToNat (p1.1 ++ p2.1) : Int)
      let sgn : Int := if neg then -1 else 1
      let v : ℚ :=
        if 0 ≤ e then
          Rat.divInt (sgn * mant * 10 ^ e.toNat) (10 ^ p2.1.length)
        else
          Rat.divInt (sgn * mant) (10 ^ (p2.1.length + (-e).toNat))
      some (.finite v)

/-- Parse the stripped, underscore-free body after an optional sign:
inf / infinity / nan (case-insensitive) or a decimal literal. -/
def parseAbs (l : List Char) (neg : Bool) : Option PyFloat :=
  let low := l.map Char.toLower
  if low = "inf".data || low = "infinity".data then
    some (if neg then .negInf else .inf)
  else if low = "nan".data then some .nan
  else parseDecimal l neg

/-- Model of the CPython builtin float() applied to a string: strips
whitespace, checks PEP 515 underscores, then parses an optional sign
followed by inf/infinity/nan or a decimal literal.  `none` models a
ValueError.  Finite results are exact rationals (no binary rounding and
no overflow to inf for huge literals; irrelevant to the claims). -/
def parsePyFloat (s : String) : Option PyFloat :=
  let l := stripChars s.data
  if underscoresOkAux none l = false then none
  else
    let l2 := l.filter (fun c => c != '_')
    match l2 with
    | '+' :: rest => parseAbs rest false
    | '-' :: rest => parseAbs rest true
    | rest => parseAbs rest false

/-- The process environment (after load_dotenv): a partial map from
variable names to values. -/
def Env : Type := String → Option String

/-- Configuration loaded from environment variables (the Config dataclass
of the source, field for field). -/
structure Config where
  amazon_access_key : String
  amazon_secret_key : String
  amazon_associate_tag : String
  amazon_region : String
  twilio_account_sid : String
  twilio_auth_token : String
  twilio_from_number : String
  twilio_to_number : String
  gmail_user : String
  gmail_app_password : String
  email_from : String
  email_to : String
  product_id : String
  expected_price : PyFloat
deriving DecidableEq

/-- The required environment variable names, in the evaluation order of
Config.from_env (AMAZON_REGION is optional and not listed). -/
def requiredKeys : List String :=
  ["AMAZON_ACCESS_KEY", "AMAZON_SECRET_KEY", "AMAZON_ASSOCIATE_TAG",
   "TWILIO_ACCOUNT_SID", "TWILIO_AUTH_TOKEN", "TWILIO_FROM_NUMBER",
   "TWILIO_TO_NUMBER", "GMAIL_USER", "GMAIL_APP_PASSWORD", "EMAIL_FROM",
   "EMAIL_TO", "AMAZON_PRODUCT_ID", "EXPECTED_PRICE"]

/-- Models `os.environ[k]`: KeyError(k) when the key is absent, otherwise
continue with the value. -/
def requireKey (env : Env) (k : String) (f : String → Except PyExc Config) :
    Except PyExc Config :=
  match env k with
  | none => .error (.keyError k)
  | some v => f v

/-- Config.from_env: reads each variable in the argument order of the
source; os.getenv with default US for the region; float() on
EXPECTED_PRICE, whose failure is a ValueError. -/
def Config.from_env (env : Env) : Except PyExc Config :=
  requireKey env "AMAZON_ACCESS_KEY" fun amazon_access_key =>
  requireKey env "AMAZON_SECRET_KEY" fun amazon_secret_key =>
  requireKey env "AMAZON_ASSOCIATE_TAG" fun amazon_associate_tag =>
  let amazon_region := (env "AMAZON_REGION").getD "US"
  requireKey env "TWILIO_ACCOUNT_SID" fun twilio_account_sid =>
  requireKey env "TWILIO_AUTH_TOKEN" fun twilio_auth_token =>
  requireKey env "TWILIO_FROM_NUMBER" fun twilio_from_number =>
  requireKey env "TWILIO_TO_NUMBER" fun twilio_to_number =>
  requireKey env "GMAIL_USER" fun gmail_user =>
  requireKey env "GMAIL_APP_PASSWORD" fun gmail_app_password =>
  requireKey env "EMAIL_FROM" fun email_from =>
  requireKey env "EMAIL_TO" fun email_to =>
  requireKey env "AMAZON_PRODUCT_ID" fun product_id =>
  requireKey env "EXPECTED_PRICE" fun ep =>
  match parsePyFloat ep with
  | none => .error (.valueError ("could not convert string to float: " ++ pyQuote ep))
  | some expected_price =>
    .ok { amazon_access_key, amazon_secret_key, amazon_associate_tag,
          amazon_region, twilio_account_sid, twilio_auth_token,
          twilio_from_number, twilio_to_number, gmail_user,
          gmail_app_password, email_from, email_to, product_id,
          expected_price }

/-- A product title object: item_info.title.display_value. -/
structure TitleInfo where
  display_value : String
deriving DecidableEq

/-- item_info of a PAAPI product; title may be absent (None). -/
structure ItemInfo where
  title : Option TitleInfo
deriving DecidableEq

/-- The price object of a listing; amount is fed through float(). -/
structure PriceInfo where
  amount : PyFloat
deriving DecidableEq

/-- One offer listing; price may be absent (None). -/
structure Listing where
  price : Option PriceInfo
deriving DecidableEq

/-- The offers object of a product, holding the listings array. -/
structure Offers where
  listings : List Listing
deriving DecidableEq

/-- A PAAPI product object; item_info and offers may be absent (None).
Attribute access on an absent object raises AttributeError in Python. -/
structure Product where
  item_info : Option ItemInfo
  offers : Option Offers
deriving DecidableEq

/-- Oracle for the one amazon.get_items call of a run: either the remote
call raises, or it returns a list of products. -/
inductive ApiResponse where
  | raises (e : PyExc)
  | returns (products : List Product)
deriving DecidableEq

/-- Oracle for the one Twilio messages.create call of a run. -/
inductive SmsOutcome where
  | sent (sid : String)
  | raises (e : PyExc)
deriving DecidableEq

/-- Oracle for the one SMTP session of a run. -/
inductive SmtpOutcome where
  | ok
  | raises (e : PyExc)
deriving DecidableEq

/-- The external world of one run: the behaviour of the three remote
collaborators. -/
structure World where
  api : ApiResponse
  sms : SmsOutcome
  smtp : SmtpOutcome
deriving DecidableEq

/-- The AttributeError raised by attribute access on None. -/
def noneAttr (a : String) : PyExc :=
  .attributeError (pyQuote "NoneType" ++ " object has no attribute " ++ pyQuote a)

/-- get_product_info: one get_items call, then products[0],
product.item_info.title.display_value and
float(product.offers.listings[0].price.amount), in source order; any
failure escapes unwrapped. -/
def get_product_info (api : ApiResponse) : Except PyExc (String × PyFloat) :=
  match api with
  | .raises e => .error e
  | .returns products =>
    match products with
    | [] => .error (.indexError "list index out of range")
    | product :: _ =>
      match product.item_info with
      | none => .error (noneAttr "title")
      | some info =>
        match info.title with
        | none => .error (noneAttr "display_value")
        | some t =>
          match product.offers with
          | none => .error (noneAttr "listings")
          | some offers =>
            match offers.listings with
            | [] => .error (.indexError "list index out of range")
            | listing :: _ =>
              match listing.price with
              | none => .error (noneAttr "amount")
              | some p => .ok (t.display_value, p.amount)

/-- send_sms: the try block performs the Twilio call; on success it prints
the SID and returns it, on any exception it prints the failure and
returns None.  Result: (returned value, printed lines). -/
def send_sms (config : Config) (outcome : SmsOutcome) (message_body : String) :
    Option String × List String :=
  match outcome with
  | .sent sid => (some sid, ["SMS sent successfully. SID: " ++ sid])
  | .raises e => (none, ["Failed to send SMS: " ++ e.message])

/-- The body of the alert email, exactly the f-string of the source
(including its leading newline and four-space indentation). -/
def email_body (config : Config) (title : String) (price : PyFloat) : String :=
  "\n    Good news! The price has dropped on a product you" ++ squote ++
    "re tracking.\n\n    Product: " ++ title ++ "\n    " ++
    ("Current Price: $" ++ pyFormat2 price) ++ "\n    " ++
    ("Your Target Price: $" ++ pyFormat2 config.expected_price) ++
    "\n\n    This is a great time to make your purchase!\n    "

/-- The diagnostic printed by the non-authentication except clauses of
send_email (SMTPException clause, then the generic clause). -/
def genericEmailDiag : PyExc → String
  | .smtpException m => "Failed to send email: SMTP error - " ++ m
  | e => "Failed to send email: " ++ e.message

/-- send_email: composes the body and runs the SMTP session; returns True
and prints confirmation on success, catches SMTPAuthenticationError with
an authentication diagnostic, SMTPException with an SMTP diagnostic and
any other exception with a generic one, returning False; never lets an
exception escape.  Result: (returned value, printed lines). -/
def send_email (config : Config) (title : String) (price : PyFloat)
    (outcome : SmtpOutcome) : Bool × List String :=
  match outcome with
  | .ok => (true, ["Email sent successfully!"])
  | .raises .smtpAuthenticationError =>
    (false, ["Failed to send email: Authentication error. Check your credentials."])
  | .raises (.smtpException m) =>
    (false, ["Failed to send email: SMTP error - " ++ m])
  | .raises e => (false, ["Failed to send email: " ++ e.message])

/-- The SMS notification message built in check_price_and_notify. -/
def alertMsg (title : String) (price : PyFloat) : String :=
  "Price Alert: " ++ title ++ " is now $" ++ pyFormat2 price ++ "!"

/-- External interactions of a run, in program order: the one product
lookup and each notifier invocation. -/
inductive Event where
  | lookup
  | smsSend (body : String)
  | emailSend (title : String) (price : PyFloat)
deriving DecidableEq

/-- True for the events that invoke a notifier. -/
def notifierInvoked : Event → Bool
  | .lookup => false
  | .smsSend _ => true
  | .emailSend _ _ => true

/-- True exactly for SMS notifier invocations. -/
def isSmsEvent : Event → Bool
  | .smsSend _ => true
  | _ => false

/-- True exactly for email notifier invocations. -/
def isEmailEvent : Event → Bool
  | .emailSend _ _ => true
  | _ => false

/-- Observable result of check_price_and_notify: printed lines, external
events, and the exception escaping to main, if any. -/
structure RunResult where
  output : List String
  events : List Event
  error : Option PyExc
deriving DecidableEq

/-- check_price_and_notify: print, fetch (exceptions escape), print the
snapshot and target, then either send both notifications (SMS first,
email unconditionally after) or print the shortfall. -/
def check_price_and_notify (config : Config) (ext : World) : RunResult :=
  let out0 := ["Fetching product information..."]
  match get_product_info ext.api with
  | .error e => ⟨out0, [.lookup], some e⟩
  | .ok (title, price) =>
    let out1 := out0 ++
      ["Product: " ++ title,
       "Current Price: $" ++ pyFormat2 price,
       "Target Price: $" ++ pyFormat2 config.expected_price]
    if PyFloat.le price config.expected_price = true then
      let msg := alertMsg title price
      let sms := send_sms config ext.sms msg
      let email := send_email config title price ext.smtp
      ⟨out1 ++ ["\nPrice is at or below target! Sending notifications..."] ++
         sms.2 ++ email.2,
       [.lookup, .smsSend msg, .emailSend title price], none⟩
    else
      ⟨out1 ++ ["\nPrice is still above target by $" ++
         pyFormat2 (PyFloat.sub price config.expected_price)],
       [.lookup], none⟩

/-- The lines printed by the two except clauses of main. -/
def errMsgLines (e : PyExc) : List String :=
  match e with
  | .keyError k =>
    ["Missing required environment variable: " ++ pyQuote k,
     "Please check your .env file or environment configuration."]
  | _ => ["An error occurred: " ++ e.message]

/-- Observable result of one process run: exit status, printed lines and
external events. -/
structure MainResult where
  exit : Nat
  output : List String
  events : List Event
deriving DecidableEq

/-- main: load configuration and run the check; KeyError and any other
exception are caught, printed and turned into SystemExit(1); a completed
run exits with status 0. -/
def pyMain (env : Env) (ext : World) : MainResult :=
  match Config.from_env env with
  | .error e => ⟨1, errMsgLines e, []⟩
  | .ok config =>
    let r := check_price_and_notify config ext
    match r.error with
    | some e => ⟨1, r.output ++ errMsgLines e, r.events⟩
    | none => ⟨0, r.output, r.events⟩

/-- Does the needle occur at the start of the haystack? -/
def startsWithChars : List Char → List Char → Bool
  | _, [] => true
  | [], _ :: _ => false
  | a :: as, b :: bs => a = b && startsWithChars as bs

/-- Does the needle occur contiguously anywhere in the haystack? -/
def hasSub : List Char → List Char → Bool
  | [], needle => needle.isEmpty
  | a :: t, needle => startsWithChars (a :: t) needle || hasSub t needle

/-- Substring test on strings, used to state the containment claims. -/
def strContains (hay needle : String) : Bool := hasSub hay.data needle.data

/-- Presence of all required configuration keys, as a boolean. -/
def requiredPresent (env : Env) : Bool :=
  requiredKeys.all (fun k => (env k).isSome)

/-- Does the EXPECTED_PRICE variable exist and parse under float()? -/
def expectedPriceParses (env : Env) : Bool :=
  match env "EXPECTED_PRICE" with
  | some s => (parsePyFloat s).isSome
  | none => false

/-- Does Config.from_env succeed on this environment? -/
def constructionSucceeds (env : Env) : Bool :=
  match Config.from_env env with
  | .ok _ => true
  | .error _ => false

/-- A fully populated product fixture with title Widget and one listing
at the given price. -/
def productAt (q : ℚ) : Product :=
  ⟨some ⟨some ⟨"Widget"⟩⟩, some ⟨[⟨some ⟨.finite q⟩⟩]⟩⟩

/-- A product fixture whose offers field is absent (None). -/
def productNoOffers : Product := ⟨some ⟨some ⟨"Widget"⟩⟩, none⟩

/-- A world where the lookup finds the Widget fixture at the given price
and both notifier providers succeed. -/
def worldAt (q : ℚ) : World := ⟨.returns [productAt q], .sent "SM123", .ok⟩

/-- A world where the lookup returns zero items. -/
def worldZeroItems : World := ⟨.returns [], .sent "SM123", .ok⟩

/-- A world where the Twilio call raises and everything else succeeds. -/
def worldSmsFail : World :=
  ⟨.returns [productAt (Rat.divInt 4999 100)], .raises (.otherError "HTTP Error 401"), .ok⟩

/-- An environment defining every required key ("x", price 50.00). -/
def envAll : Env := fun k =>
  if k = "EXPECTED_PRICE" then some "50.00"
  else if requiredKeys.contains k then some "x" else none

/-- An environment whose expected price parses to the negative value -5
and whose other required values are empty strings. -/
def envNeg : Env := fun k =>
  if k = "EXPECTED_PRICE" then some "-5"
  else if requiredKeys.contains k then some "" else none

/-- The empty environment. -/
def envEmpty : Env := fun _ => none

/-- The configuration produced by Config.from_env on envAll. -/
def cfgAll : Config :=
  ⟨"x", "x", "x", "US", "x", "x", "x", "x", "x", "x", "x", "x", "x", .finite 50⟩

deriving instance DecidableEq for Except

theorem strData_append (s t : String) : (s ++ t).data = s.data ++ t.data := rfl

theorem strExt {a b : String} (h : a.data = b.data) : a = b :=
  congrArg String.mk h

theorem startsWithChars_append (n t : List Char) : startsWithChars (n ++ t) n = true := by
  induction n with
  | nil => cases t <;> simp [startsWithChars]
  | cons a as ih => simp [startsWithChars, ih]

theorem hasSub_startsWith {l n : List Char} (h : startsWithChars l n = true) :
    hasSub l n = true := by
  cases l with
  | nil =>
    cases n with
    | nil => rfl
    | cons b bs => simp [startsWithChars] at h
  | cons a t => simp [hasSub, h]

theorem hasSub_self_append (n t : List Char) : hasSub (n ++ t) n = true :=
  hasSub_startsWith (startsWithChars_append n t)

theorem hasSub_append_left (a : List Char) {l n : List Char} (h : hasSub l n = true) :
    hasSub (a ++ l) n = true := by
  induction a with
  | nil => simpa
  | cons x xs ih => simp [hasSub, ih]

theorem hasSub_middle (s n t : List Char) : hasSub (s ++ (n ++ t)) n = true :=
  hasSub_append_left s (hasSub_self_append n t)

theorem strContains_middle (a n b : String) : strContains (a ++ n ++ b) n = true := by
  unfold strContains
  rw [strData_append, strData_append, List.append_assoc]
  exact hasSub_middle a.data n.data b.data

theorem from_env_ok_characterization (env : Env) :
    constructionSucceeds env = true ↔
      (requiredPresent env = true ∧ expectedPriceParses env = true) := by
  unfold constructionSucceeds Config.from_env requireKey requiredPresent expectedPriceParses requiredKeys
  rcases h1 : env "AMAZON_ACCESS_KEY" with _ | v1
  · simp [h1]
  rcases h2 : env "AMAZON_SECRET_KEY" with _ | v2
  · simp [h1, h2]
  rcases h3 : env "AMAZON_ASSOCIATE_TAG" with _ | v3
  · simp [h1, h2, h3]
  rcases h4 : env "TWILIO_ACCOUNT_SID" with _ | v4
  · simp [h1, h2, h3, h4]
  rcases h5 : env "TWILIO_AUTH_TOKEN" with _ | v5
  · simp [h1, h2, h3, h4, h5]
  rcases h6 : env "TWILIO_FROM_NUMBER" with _ | v6
  · simp [h1, h2, h3, h4, h5, h6]
  rcases h7 : env "TWILIO_TO_NUMBER" with _ | v7
  · simp [h1, h2, h3, h4, h5, h6, h7]
  rcases h8 : env "GMAIL_USER" with _ | v8
  · simp [h1, h2, h3, h4, h5, h6, h7, h8]
  rcases h9 : env "GMAIL_APP_PASSWORD" with _ | v9
  · simp [h1, h2, h3, h4, h5, h6, h7, h8, h9]
  rcases h10 : env "EMAIL_FROM" with _ | v10
  · simp [h1, h2, h3, h4, h5, h6, h7, h8, h9, h10]
  rcases h11 : env "EMAIL_TO" with _ | v11
  · simp [h1, h2, h3, h4, h5, h6, h7, h8, h9, h10, h11]
  rcases h12 : env "AMAZON_PRODUCT_ID" with _ | v12
  · simp [h1, h2, h3, h4, h5, h6, h7, h8, h9, h10, h11, h12]
  rcases h13 : env "EXPECTED_PRICE" with _ | v13
  · simp [h1, h2, h3, h4, h5, h6, h7, h8, h9, h10, h11, h12, h13]
  rcases hp : parsePyFloat v13 with _ | f
  · simp [h1, h2, h3, h4, h5, h6, h7, h8, h9, h10, h11, h12, h13, hp]
  · simp [h1, h2, h3, h4, h5, h6, h7, h8, h9, h10, h11, h12, h13, hp]

theorem from_env_missing_key (env : Env)
    (h : ∃ k, k ∈ requiredKeys ∧ env k = none) :
    ∃ k, k ∈ requiredKeys ∧ env k = none ∧
      Config.from_env env = .error (.keyError k) := by
  rcases h1 : env "AMAZON_ACCESS_KEY" with _ | v1
  · exact ⟨"AMAZON_ACCESS_KEY", by decide, h1, by simp [Config.from_env, requireKey, h1]⟩
  rcases h2 : env "AMAZON_SECRET_KEY" with _ | v2
  · exact ⟨"AMAZON_SECRET_KEY", by decide, h2, by simp [Config.from_env, requireKey, h1, h2]⟩
  rcases h3 : env "AMAZON_ASSOCIATE_TAG" with _ | v3
  · exact ⟨"AMAZON_ASSOCIATE_TAG", by decide, h3, by simp [Config.from_env, requireKey, h1, h2, h3]⟩
  rcases h4 : env "TWILIO_ACCOUNT_SID" with _ | v4
  · exact ⟨"TWILIO_ACCOUNT_SID", by decide, h4, by simp [Config.from_env, requireKey, h1, h2, h3, h4]⟩
  rcases h5 : env "TWILIO_AUTH_TOKEN" with _ | v5
  · exact ⟨"TWILIO_AUTH_TOKEN", by decide, h5, by simp [Config.from_env, requireKey, h1, h2, h3, h4, h5]⟩
  rcases h6 : env "TWILIO_FROM_NUMBER" with _ | v6
  · exact ⟨"TWILIO_FROM_NUMBER", by decide, h6, by simp [Config.from_env, requireKey, h1, h2, h3, h4, h5, h6]⟩
  rcases h7 : env "TWILIO_TO_NUMBER" with _ | v7
  · exact ⟨"TWILIO_TO_NUMBER", by decide, h7, by simp [Config.from_env, requireKey, h1, h2, h3, h4, h5, h6, h7]⟩
  rcases h8 : env "GMAIL_USER" with _ | v8
  · exact ⟨"GMAIL_USER", by decide, h8, by simp [Config.from_env, requireKey, h1, h2, h3, h4, h5, h6, h7, h8]⟩
  rcases h9 : env "GMAIL_APP_PASSWORD" with _ | v9
  · exact ⟨"GMAIL_APP_PASSWORD", by decide, h9, by simp [Config.from_env, requireKey, h1, h2, h3, h4, h5, h6, h7, h8, h9]⟩
  rcases h10 : env "EMAIL_FROM" with _ | v10
  · exact ⟨"EMAIL_FROM", by decide, h10, by simp [Config.from_env, requireKey, h1, h2, h3, h4, h5, h6, h7, h8, h9, h10]⟩
  rcases h11 : env "EMAIL_TO" with _ | v11
  · exact ⟨"EMAIL_TO", by decide, h11, by simp [Config.from_env, requireKey, h1, h2, h3, h4, h5, h6, h7, h8, h9, h10, h11]⟩
  rcases h12 : env "AMAZON_PRODUCT_ID" with _ | v12
  · exact ⟨"AMAZON_PRODUCT_ID", by decide, h12, by simp [Config.from_env, requireKey, h1, h2, h3, h4, h5, h6, h7, h8, h9, h10, h11, h12]⟩
  rcases h13 : env "EXPECTED_PRICE" with _ | v13
  · exact ⟨"EXPECTED_PRICE", by decide, h13, by simp [Config.from_env, requireKey, h1, h2, h3, h4, h5, h6, h7, h8, h9, h10, h11, h12, h13]⟩
  exfalso
  obtain ⟨k, hk, hnone⟩ := h
  simp [requiredKeys] at hk
  rcases hk with rfl | rfl | rfl | rfl | rfl | rfl | rfl | rfl | rfl | rfl | rfl | rfl | rfl <;> simp_all

theorem hasSub_append_pair (n m t : List Char) : hasSub (n ++ (m ++ t)) (n ++ m) = true := by
  rw [← List.append_assoc]
  exact hasSub_self_append (n ++ m) t

theorem from_env_envAll : Config.from_env envAll = .ok cfgAll := by decide

/-- C1: for every configuration and every successfully fetched snapshot
(title, price), check_price_and_notify invokes the notifiers if and only
if price ≤ expected_price: when the comparison holds (boundary equality
included) exactly the SMS send and then the email send happen, and when
price > expected_price neither notifier is invoked. -/
theorem c1_notifiers_iff_price_le (config : Config) (ext : World)
    (title : String) (price : PyFloat)
    (h : get_product_info ext.api = .ok (title, price)) :
    (check_price_and_notify config ext).events =
      (if PyFloat.le price config.expected_price = true then
        [.lookup, .smsSend (alertMsg title price), .emailSend title price]
      else [.lookup]) := by
  unfold check_price_and_notify
  rw [h]
  by_cases hle : PyFloat.le price config.expected_price = true
  · simp [hle]
  · simp [hle]

/-- Witness for C1 at the concrete triggered run price 49.99 against
target 50.00. -/
theorem c1_witness :
    (check_price_and_notify cfgAll (worldAt (Rat.divInt 4999 100))).events =
      [.lookup, .smsSend (alertMsg "Widget" (.finite (Rat.divInt 4999 100))),
       .emailSend "Widget" (.finite (Rat.divInt 4999 100))] := by
  rw [c1_notifiers_iff_price_le cfgAll (worldAt (Rat.divInt 4999 100)) "Widget"
    (.finite (Rat.divInt 4999 100)) (by decide)]
  decide

/-- C2 counterexample: the claim says construction fails for a
non-positive expected price or empty required fields; but on envNeg,
whose EXPECTED_PRICE is the string -5 (parsing to the negative value -5)
and whose other required values are all empty strings, Config.from_env
succeeds. -/
theorem c2_counterexample :
    parsePyFloat "-5" = some (.finite (-5)) ∧
    envNeg "GMAIL_USER" = some "" ∧
    Config.from_env envNeg =
      .ok ⟨"", "", "", "US", "", "", "", "", "", "", "", "", "", .finite (-5)⟩ := by
  decide

/-- C2 (amended): construction succeeds if and only if every required key
is present and the EXPECTED_PRICE string parses under float(); no
positivity, finiteness or non-emptiness validation is performed. -/
theorem c2_construction_validates_parse_only (env : Env) :
    constructionSucceeds env = true ↔
      (requiredPresent env = true ∧ expectedPriceParses env = true) :=
  from_env_ok_characterization env

/-- Witness for C2 (amended) on the concrete environment envNeg. -/
theorem c2_witness : constructionSucceeds envNeg = true :=
  (c2_construction_validates_parse_only envNeg).mpr (by decide)

/-- C3 counterexample: the claim says a lookup whose response lacks the
expected fields fails with a LookupError wrapping the cause; but on a
product without offers, get_product_info propagates the raw
AttributeError, which is not a LookupError. -/
theorem c3_counterexample :
    get_product_info (.returns [productNoOffers]) = .error (noneAttr "listings") ∧
    PyExc.isLookupError (noneAttr "listings") = false := by
  decide

/-- C3 (amended): whenever the product lookup errors (remote failure,
zero results — which raises an IndexError, a LookupError subclass — or
missing fields), the underlying exception propagates unwrapped to main,
which surfaces it, exits with status 1, and invokes no notifier. -/
theorem c3_lookup_failure_aborts (env : Env) (ext : World) (config : Config)
    (e : PyExc)
    (hc : Config.from_env env = .ok config)
    (hl : get_product_info ext.api = .error e) :
    (pyMain env ext).exit = 1 ∧
    (∀ ev ∈ (pyMain env ext).events, notifierInvoked ev = false) ∧
    (pyMain env ext).output = ["Fetching product information..."] ++ errMsgLines e := by
  simp [pyMain, hc, check_price_and_notify, hl, notifierInvoked]

/-- Witness for C3 (amended): zero items returned. -/
theorem c3_witness :
    (pyMain envAll worldZeroItems).exit = 1 ∧
    (∀ ev ∈ (pyMain envAll worldZeroItems).events, notifierInvoked ev = false) ∧
    (pyMain envAll worldZeroItems).output =
      ["Fetching product information..."] ++
        errMsgLines (.indexError "list index out of range") :=
  c3_lookup_failure_aborts envAll worldZeroItems cfgAll
    (.indexError "list index out of range") (by decide) (by decide)

/-- C4: the SMS notifier is fire-and-forget: when the Twilio call raises,
send_sms catches the failure, prints a description, and returns None; in
a triggered run with a successful lookup the email notifier is still
invoked afterwards and the process exits with status 0. -/
theorem c4_sms_fire_and_forget (env : Env) (ext : World) (config : Config)
    (title : String) (price : PyFloat) (e : PyExc)
    (hc : Config.from_env env = .ok config)
    (hl : get_product_info ext.api = .ok (title, price))
    (ht : PyFloat.le price config.expected_price = true)
    (hs : ext.sms = .raises e) :
    send_sms config ext.sms (alertMsg title price) =
      (none, ["Failed to send SMS: " ++ e.message]) ∧
    Event.emailSend title price ∈ (pyMain env ext).events ∧
    (pyMain env ext).exit = 0 := by
  refine ⟨by simp [send_sms, hs], ?_, ?_⟩ <;>
    simp [pyMain, hc, check_price_and_notify, hl, ht]

/-- Witness for C4: Twilio raises an HTTP error in a triggered run. -/
theorem c4_witness :
    send_sms cfgAll worldSmsFail.sms (alertMsg "Widget" (.finite (Rat.divInt 4999 100))) =
      (none, ["Failed to send SMS: " ++ PyExc.message (.otherError "HTTP Error 401")]) ∧
    Event.emailSend "Widget" (.finite (Rat.divInt 4999 100)) ∈
      (pyMain envAll worldSmsFail).events ∧
    (pyMain envAll worldSmsFail).exit = 0 :=
  c4_sms_fire_and_forget envAll worldSmsFail cfgAll "Widget"
    (.finite (Rat.divInt 4999 100)) (.otherError "HTTP Error 401")
    (by decide) (by decide) (by decide) rfl

/-- C5: the process exit status is 0 exactly on fully completed runs
(configuration loaded and lookup succeeded, whatever the notifier
outcomes and whether the threshold was met), and 1 whenever
configuration loading fails or the product lookup fails. -/
theorem c5_exit_status (env : Env) (ext : World) :
    (∀ config title price, Config.from_env env = .ok config →
        get_product_info ext.api = .ok (title, price) →
        (pyMain env ext).exit = 0) ∧
    (∀ e, Config.from_env env = .error e → (pyMain env ext).exit = 1) ∧
    (∀ config e, Config.from_env env = .ok config →
        get_product_info ext.api = .error e → (pyMain env ext).exit = 1) := by
  refine ⟨?_, ?_, ?_⟩
  · intro config title price hc hl
    by_cases hle : PyFloat.le price config.expected_price = true <;>
      simp [pyMain, hc, check_price_and_notify, hl, hle]
  · intro e hc
    simp [pyMain, hc]
  · intro config e hc hl
    simp [pyMain, hc, check_price_and_notify, hl]

/-- Witness for C5: exit 0 on a completed non-triggered run, exit 1 on a
missing configuration, exit 1 on a failed lookup. -/
theorem c5_witness :
    (pyMain envAll (worldAt (Rat.divInt 5001 100))).exit = 0 ∧
    (pyMain envEmpty (worldAt 50)).exit = 1 ∧
    (pyMain envAll worldZeroItems).exit = 1 :=
  ⟨(c5_exit_status envAll (worldAt (Rat.divInt 5001 100))).1 cfgAll "Widget"
      (.finite (Rat.divInt 5001 100)) (by decide) (by decide),
   (c5_exit_status envEmpty (worldAt 50)).2.1 (.keyError "AMAZON_ACCESS_KEY") (by decide),
   (c5_exit_status envAll worldZeroItems).2.2 cfgAll
      (.indexError "list index out of range") (by decide) (by decide)⟩

/-- C6: when at least one required configuration key is absent, loading
fails with a KeyError naming a missing key, main prints that name, exits
with status 1, and no external call of any kind (lookup, SMS, email) is
ever attempted. -/
theorem c6_missing_key_aborts_before_network (env : Env) (ext : World)
    (h : ∃ k, k ∈ requiredKeys ∧ env k = none) :
    ∃ k, k ∈ requiredKeys ∧ env k = none ∧
      Config.from_env env = .error (.keyError k) ∧
      (pyMain env ext).exit = 1 ∧
      (pyMain env ext).events = [] ∧
      (pyMain env ext).output =
        ["Missing required environment variable: " ++ pyQuote k,
         "Please check your .env file or environment configuration."] := by
  obtain ⟨k, hk, hn, he⟩ := from_env_missing_key env h
  exact ⟨k, hk, hn, he, by simp [pyMain, he], by simp [pyMain, he],
    by simp [pyMain, he, errMsgLines]⟩

/-- Witness for C6 on the empty environment. -/
theorem c6_witness :
    ∃ k, k ∈ requiredKeys ∧ envEmpty k = none ∧
      Config.from_env envEmpty = .error (.keyError k) ∧
      (pyMain envEmpty (worldAt 50)).exit = 1 ∧
      (pyMain envEmpty (worldAt 50)).events = [] ∧
      (pyMain envEmpty (worldAt 50)).output =
        ["Missing required environment variable: " ++ pyQuote k,
         "Please check your .env file or environment configuration."] :=
  c6_missing_key_aborts_before_network envEmpty (worldAt 50)
    ⟨"AMAZON_ACCESS_KEY", by decide, rfl⟩

/-- C7: send_email never propagates a failure: it returns True and prints
confirmation exactly when the SMTP session succeeds, returns False with
the authentication-specific diagnostic on SMTPAuthenticationError, and
returns False with a non-authentication diagnostic on any other raised
failure. -/
theorem c7_send_email_results (config : Config) (title : String) (price : PyFloat) :
    send_email config title price .ok = (true, ["Email sent successfully!"]) ∧
    send_email config title price (.raises .smtpAuthenticationError) =
      (false, ["Failed to send email: Authentication error. Check your credentials."]) ∧
    (∀ e, e ≠ PyExc.smtpAuthenticationError →
      send_email config title price (.raises e) = (false, [genericEmailDiag e])) ∧
    (∀ o, (send_email config title price o).1 = true ↔ o = SmtpOutcome.ok) := by
  refine ⟨rfl, rfl, ?_, ?_⟩
  · intro e he
    cases e <;> first | exact absurd rfl he | rfl
  · intro o
    cases o with
    | ok => simp [send_email]
    | raises e => cases e <;> simp [send_email]

/-- Witness for C7 at a concrete configuration and failure. -/
theorem c7_witness :
    send_email cfgAll "Widget" (.finite (Rat.divInt 4999 100)) .ok =
      (true, ["Email sent successfully!"]) ∧
    send_email cfgAll "Widget" (.finite (Rat.divInt 4999 100))
        (.raises (.otherError "connection reset")) =
      (false, [genericEmailDiag (.otherError "connection reset")]) :=
  ⟨(c7_send_email_results cfgAll "Widget" (.finite (Rat.divInt 4999 100))).1,
   (c7_send_email_results cfgAll "Widget" (.finite (Rat.divInt 4999 100))).2.2.1
     (.otherError "connection reset") (by decide)⟩

/-- C8: in every triggered run each notifier is invoked exactly once, and
the plain-text email body states the product title, the current price
under the two-decimal format, and the configured target price (the
two-decimal format always renders finite values with exactly two digits
after the point). -/
theorem c8_email_message_content (config : Config) (ext : World)
    (title : String) (price : PyFloat)
    (hl : get_product_info ext.api = .ok (title, price))
    (ht : PyFloat.le price config.expected_price = true) :
    ((check_price_and_notify config ext).events.filter isSmsEvent).length = 1 ∧
    ((check_price_and_notify config ext).events.filter isEmailEvent).length = 1 ∧
    strContains (email_body config title price) title = true ∧
    strContains (email_body config title price)
      ("Current Price: $" ++ pyFormat2 price) = true ∧
    strContains (email_body config title price)
      ("Your Target Price: $" ++ pyFormat2 config.expected_price) = true ∧
    (∀ q : ℚ, ∃ pre : String,
      pyFormat2 (.finite q) = pre ++ "." ++ twoDigits (round2cents q % 100) ∧
      (twoDigits (round2cents q % 100)).length = 2) := by
  refine ⟨?_, ?_, ?_, ?_, ?_, ?_⟩
  · simp [check_price_and_notify, hl, ht, isSmsEvent, isEmailEvent, List.filter]
  · simp [check_price_and_notify, hl, ht, isSmsEvent, isEmailEvent, List.filter]
  · unfold strContains email_body
    simp only [strData_append, List.append_assoc]
    apply hasSub_append_left
    apply hasSub_append_left
    apply hasSub_append_left
    exact hasSub_self_append _ _
  · unfold strContains email_body
    simp only [strData_append, List.append_assoc]
    apply hasSub_append_left
    apply hasSub_append_left
    apply hasSub_append_left
    apply hasSub_append_left
    apply hasSub_append_left
    exact hasSub_append_pair _ _ _
  · unfold strContains email_body
    simp only [strData_append, List.append_assoc]
    apply hasSub_append_left
    apply hasSub_append_left
    apply hasSub_append_left
    apply hasSub_append_left
    apply hasSub_append_left
    apply hasSub_append_left
    apply hasSub_append_left
    apply hasSub_append_left
    exact hasSub_append_pair _ _ _
  · intro q
    exact ⟨(if q < 0 then "-" else "") ++ toString (round2cents q / 100), rfl, rfl⟩

/-- Witness for C8 at price 49.99 against target 50.00: one SMS and one
email, and the body contains the strings 49.99 and 50.00. -/
theorem c8_witness :
    ((check_price_and_notify cfgAll (worldAt (Rat.divInt 4999 100))).events.filter
      isSmsEvent).length = 1 ∧
    ((check_price_and_notify cfgAll (worldAt (Rat.divInt 4999 100))).events.filter
      isEmailEvent).length = 1 ∧
    strContains (email_body cfgAll "Widget" (.finite (Rat.divInt 4999 100))) "49.99" = true ∧
    strContains (email_body cfgAll "Widget" (.finite (Rat.divInt 4999 100))) "50.00" = true ∧
    strContains (email_body cfgAll "Widget" (.finite (Rat.divInt 4999 100)))
      ("Current Price: $" ++ pyFormat2 (.finite (Rat.divInt 4999 100))) = true := by
  have h := c8_email_message_content cfgAll (worldAt (Rat.divInt 4999 100)) "Widget"
    (.finite (Rat.divInt 4999 100)) (by decide) (by decide)
  exact ⟨h.1, h.2.1, by decide, by decide, h.2.2.2.1⟩

/-- C9: in every non-triggered run no notifier is invoked and the program
prints the shortfall price - expected_price under the two-decimal
format. -/
theorem c9_shortfall_printed (config : Config) (ext : World)
    (title : String) (price : PyFloat)
    (hl : get_product_info ext.api = .ok (title, price))
    (hgt : PyFloat.le price config.expected_price = false) :
    (∀ ev ∈ (check_price_and_notify config ext).events, notifierInvoked ev = false) ∧
    (check_price_and_notify config ext).output =
      ["Fetching product information...",
       "Product: " ++ title,
       "Current Price: $" ++ pyFormat2 price,
       "Target Price: $" ++ pyFormat2 config.expected_price,
       "\nPrice is still above target by $" ++
         pyFormat2 (PyFloat.sub price config.expected_price)] := by
  simp [check_price_and_notify, hl, hgt, notifierInvoked]

/-- Witness for C9 at price 50.01 against target 50.00: no notifier runs
and the printed shortfall is 0.01. -/
theorem c9_witness :
    (∀ ev ∈ (check_price_and_notify cfgAll (worldAt (Rat.divInt 5001 100))).events,
      notifierInvoked ev = false) ∧
    pyFormat2 (PyFloat.sub (.finite (Rat.divInt 5001 100)) cfgAll.expected_price) = "0.01" ∧
    (check_price_and_notify cfgAll (worldAt (Rat.divInt 5001 100))).output =
      ["Fetching product information...",
       "Product: Widget",
       "Current Price: $50.01",
       "Target Price: $50.00",
       "\nPrice is still above target by $0.01"] := by
  have h := c9_shortfall_printed cfgAll (worldAt (Rat.divInt 5001 100)) "Widget"
    (.finite (Rat.divInt 5001 100)) (by decide) (by decide)
  refine ⟨h.1, by decide, ?_⟩
  rw [h.2]
  decide

/-- C10 counterexample: the claim says the SMS body never contains the
configured target price; but in the triggered boundary run price =
expected_price = 50.00 the body does contain the target-price string
50.00. -/
theorem c10_counterexample :
    PyFloat.le (.finite 50) cfgAll.expected_price = true ∧
    Event.smsSend (alertMsg "Widget" (.finite 50)) ∈
      (check_price_and_notify cfgAll (worldAt 50)).events ∧
    strContains (alertMsg "Widget" (.finite 50)) (pyFormat2 cfgAll.expected_price) = true := by
  decide

/-- C10 (amended): in every triggered run the SMS body is exactly the
string Price Alert: {title} is now ${price:.2f}!, which contains the
product title and the two-decimal current price and is built from the
title and price alone — the target price is not one of its components,
though its text can still occur (for instance when price =
expected_price). -/
theorem c10_sms_body (config : Config) (ext : World)
    (title : String) (price : PyFloat)
    (hl : get_product_info ext.api = .ok (title, price))
    (ht : PyFloat.le price config.expected_price = true) :
    Event.smsSend (alertMsg title price) ∈ (check_price_and_notify config ext).events ∧
    alertMsg title price =
      "Price Alert: " ++ title ++ " is now $" ++ pyFormat2 price ++ "!" ∧
    strContains (alertMsg title price) title = true ∧
    strContains (alertMsg title price) (pyFormat2 price) = true := by
  refine ⟨by simp [check_price_and_notify, hl, ht], rfl, ?_, ?_⟩
  · unfold strContains alertMsg
    simp only [strData_append, List.append_assoc]
    apply hasSub_append_left
    exact hasSub_self_append _ _
  · unfold strContains alertMsg
    simp only [strData_append, List.append_assoc]
    apply hasSub_append_left
    apply hasSub_append_left
    apply hasSub_append_left
    exact hasSub_self_append _ _

/-- Witness for C10 (amended) at the concrete triggered run. -/
theorem c10_witness :
    Event.smsSend (alertMsg "Widget" (.finite (Rat.divInt 4999 100))) ∈
      (check_price_and_notify cfgAll (worldAt (Rat.divInt 4999 100))).events ∧
    strContains (alertMsg "Widget" (.finite (Rat.divInt 4999 100)))
      (pyFormat2 (.finite (Rat.divInt 4999 100))) = true := by
  have h := c10_sms_body cfgAll (worldAt (Rat.divInt 4999 100)) "Widget"
    (.finite (Rat.divInt 4999 100)) (by decide) (by decide)
  exact ⟨h.1, h.2.2.2⟩
